import Mathlib

/-!
Shallow embedding of the video-generation orchestration subsystem of the
`video_gen` repository: provider cost model (`shared/providers/base.py`),
provider error mapping (`shared/providers/sora_provider.py`,
`shared/providers/wan_provider.py`), provider factory
(`shared/providers/factory.py`), and the video service
(`services/video/main.py`): admission (`generate_video`), the background
poll loop (`process_video_generation`), and the per-user HTTP endpoints
(`get_video_status`, `list_user_videos`, `delete_video`).

Machine reals of the Python source (float money amounts, multipliers) are
modelled as exact rationals; Python `round(x, 2)` is modelled as decimal
rounding to 2 places; fallible Python code (raised exceptions) is modelled
with `Except`.
-/

namespace VideoGen

/-- `shared/database/models.py`: `JobStatus` enum. -/
inductive JobStatus
  | pending
  | processing
  | completed
  | failed
  | cancelled
deriving DecidableEq, Repr, BEq

/-- `shared/providers/base.py`: `VideoStatus` enum. -/
inductive VideoStatus
  | pending
  | processing
  | completed
  | failed
  | cancelled
deriving DecidableEq, Repr, BEq

/-- `shared/database/models.py`: `TransactionType` enum. -/
inductive TransactionType
  | purchase
  | deduction
  | refund
  | bonus
deriving DecidableEq, Repr, BEq

/-- `shared/providers/base.py`: `VideoGenerationRequest` (the provider-level
request object built by the video service). -/
structure GenRequest where
  prompt : String
  duration_seconds : Nat
  resolution_width : Nat
  resolution_height : Nat
  fps : Nat
  image_url : Option String
deriving DecidableEq, Repr

/-- Capability record returned by each provider's `get_capabilities()`;
only the keys read by `calculate_cost` and `validate_request` are modelled
(every concrete provider's dictionary supplies all of them). -/
structure Capabilities where
  max_duration_seconds : Nat
  max_width : Nat
  max_height : Nat
  supports_image_input : Bool
  cost_per_second : ℚ
  image_cost_multiplier : ℚ
deriving DecidableEq, Repr

/-- Python `round(x, 2)`: rounding to two decimal places.  The exact
tie-breaking mode is irrelevant to every statement below because both sides
of each equation share this function. -/
def round2 (x : ℚ) : ℚ := ((⌊x * 100 + 1 / 2⌋ : ℤ) : ℚ) / 100

/-- `BaseVideoProvider._get_resolution_multiplier` from
`shared/providers/base.py`. -/
def resolutionMultiplier (width height : Nat) : ℚ :=
  let total_pixels := width * height
  if total_pixels ≤ 720 * 480 then 1
  else if total_pixels ≤ 1280 * 720 then 3 / 2
  else if total_pixels ≤ 1920 * 1080 then 2
  else if total_pixels ≤ 3840 * 2160 then 3
  else 4

/-- `BaseVideoProvider.calculate_cost` from `shared/providers/base.py`. -/
def calculate_cost (caps : Capabilities) (request : GenRequest) : ℚ :=
  let base_cost := (request.duration_seconds : ℚ) * caps.cost_per_second
  let base_cost :=
    if request.image_url.isSome && caps.supports_image_input then
      base_cost * caps.image_cost_multiplier
    else base_cost
  let base_cost :=
    base_cost * resolutionMultiplier request.resolution_width request.resolution_height
  round2 base_cost

/-- Resolution tier read off the spec's wording for `estimateCost`
("tiers: ≤SD, ≤HD, ≤Full-HD, ≤4K, else Ultra"), as a function of the total
pixel count: 0 = SD, 1 = HD, 2 = Full-HD, 3 = 4K, 4 = Ultra. -/
def specResolutionTier (total_pixels : Nat) : Nat :=
  if total_pixels ≤ 720 * 480 then 0
  else if total_pixels ≤ 1280 * 720 then 1
  else if total_pixels ≤ 1920 * 1080 then 2
  else if total_pixels ≤ 3840 * 2160 then 3
  else 4

/-- The five tier multipliers of `_get_resolution_multiplier`, indexed by
tier. -/
def tierMultiplier : Nat → ℚ
  | 0 => 1
  | 1 => 3 / 2
  | 2 => 2
  | 3 => 3
  | _ => 4

theorem resolutionMultiplier_eq_tier (w h : Nat) :
    resolutionMultiplier w h = tierMultiplier (specResolutionTier (w * h)) := by
  simp only [resolutionMultiplier, specResolutionTier]
  split_ifs <;> rfl

theorem tierMultiplier_strictMono {i j : Nat} (hj : j ≤ 4) (hij : i < j) :
    tierMultiplier i < tierMultiplier j := by
  interval_cases j <;> interval_cases i <;> norm_num [tierMultiplier]

theorem specResolutionTier_le_four (p : Nat) : specResolutionTier p ≤ 4 := by
  unfold specResolutionTier
  split_ifs <;> omega

/-- Claim C2: the estimated cost returned by `calculate_cost` equals
duration × cost-per-second, times the provider's image-input multiplier when
a source image is present (every provider in this repository reports
`supports_image_input = True`), times a resolution-tier multiplier
determined by the total pixel count with the tiers ≤SD, ≤HD, ≤Full-HD, ≤4K,
else Ultra and strictly increasing multipliers, rounded to 2 decimal
places. -/
theorem claim_C2_calculate_cost (caps : Capabilities) (r : GenRequest)
    (himg : caps.supports_image_input = true) :
    calculate_cost caps r =
      round2 ((r.duration_seconds : ℚ) * caps.cost_per_second *
        (if r.image_url.isSome then caps.image_cost_multiplier else 1) *
        tierMultiplier (specResolutionTier (r.resolution_width * r.resolution_height))) ∧
    (∀ w h w' h' : Nat,
      specResolutionTier (w * h) < specResolutionTier (w' * h') →
      resolutionMultiplier w h < resolutionMultiplier w' h') ∧
    (∀ w h w' h' : Nat,
      specResolutionTier (w * h) = specResolutionTier (w' * h') →
      resolutionMultiplier w h = resolutionMultiplier w' h') := by
  refine ⟨?_, ?_, ?_⟩
  · simp only [calculate_cost, himg, Bool.and_true, resolutionMultiplier_eq_tier]
    split_ifs <;> first
      | rfl
      | (congr 1; ring)
  · intro w h w' h' hlt
    rw [resolutionMultiplier_eq_tier, resolutionMultiplier_eq_tier]
    exact tierMultiplier_strictMono (specResolutionTier_le_four _) hlt
  · intro w h w' h' heq
    rw [resolutionMultiplier_eq_tier, resolutionMultiplier_eq_tier, heq]

/-- Concrete request used by the C2 witness. -/
def c2Request : GenRequest :=
  { prompt := "a cat on a roof"
    duration_seconds := 5
    resolution_width := 1280
    resolution_height := 720
    fps := 24
    image_url := none }

/-- `SoraProvider.get_capabilities` (`shared/providers/sora_provider.py`). -/
def soraCapabilities : Capabilities :=
  { max_duration_seconds := 20
    max_width := 1792
    max_height := 1792
    supports_image_input := true
    cost_per_second := 1 / 20
    image_cost_multiplier := 9 / 5 }

/-- `Veo3Provider.get_capabilities` (`shared/providers/veo3_provider.py`). -/
def veo3Capabilities : Capabilities :=
  { max_duration_seconds := 60
    max_width := 1920
    max_height := 1080
    supports_image_input := true
    cost_per_second := 1 / 50
    image_cost_multiplier := 3 / 2 }

/-- `WANProvider.get_capabilities` (`shared/providers/wan_provider.py`). -/
def wanCapabilities : Capabilities :=
  { max_duration_seconds := 30
    max_width := 1920
    max_height := 1080
    supports_image_input := true
    cost_per_second := 3 / 200
    image_cost_multiplier := 6 / 5 }

/-- Witness for claim C2 at the Sora provider's capability record and a
concrete 5-second HD request. -/
theorem claim_C2_witness :
    soraCapabilities.supports_image_input = true ∧
    (calculate_cost soraCapabilities c2Request =
      round2 ((c2Request.duration_seconds : ℚ) * soraCapabilities.cost_per_second *
        (if c2Request.image_url.isSome then soraCapabilities.image_cost_multiplier else 1) *
        tierMultiplier
          (specResolutionTier (c2Request.resolution_width * c2Request.resolution_height))) ∧
    (∀ w h w' h' : Nat,
      specResolutionTier (w * h) < specResolutionTier (w' * h') →
      resolutionMultiplier w h < resolutionMultiplier w' h') ∧
    (∀ w h w' h' : Nat,
      specResolutionTier (w * h) = specResolutionTier (w' * h') →
      resolutionMultiplier w h = resolutionMultiplier w' h')) :=
  ⟨rfl, claim_C2_calculate_cost soraCapabilities c2Request rfl⟩

/-! ## Provider factory (`shared/providers/factory.py`) -/

/-- The three concrete provider classes registered in
`ProviderFactory._providers`. -/
inductive ProviderClass
  | sora
  | veo3
  | wan
deriving DecidableEq, Repr, BEq

/-- `ProviderFactory._providers`: the registry mapping identifier strings to
provider classes (module-initialisation contents). -/
def providerRegistry : List (String × ProviderClass) :=
  [("sora", .sora), ("veo3", .veo3), ("wan", .wan),
   ("SORA2", .sora), ("VEO3", .veo3), ("WAN", .wan)]

/-- Dictionary lookup `cls._providers[provider_type]` (keys are unique). -/
def registryLookup (provider_type : String) : Option ProviderClass :=
  (providerRegistry.find? (fun kv => kv.1 == provider_type)).map (·.2)

/-- Python truthiness of an optional string (`if not api_key`): `None` and
the empty string are falsy. -/
def strTruthy : Option String → Bool
  | none => false
  | some s => !(s == "")

/-- `ProviderFactory._get_api_key_for_provider`: the environment-variable
name holding each provider's credential. -/
def envVarNameFor (provider_type : String) : Option String :=
  (([("sora", "OPENAI_API_KEY"), ("veo3", "GOOGLE_AI_API_KEY"),
     ("wan", "WAN_API_KEY"), ("SORA2", "OPENAI_API_KEY"),
     ("VEO3", "GOOGLE_AI_API_KEY"), ("WAN", "WAN_API_KEY")] :
    List (String × String)).find? (fun kv => kv.1 == provider_type)).map (·.2)

/-- `ProviderFactory._get_api_key_for_provider` reading the process
environment, modelled as a function from variable names to optional
values. -/
def getApiKeyForProvider (provider_type : String) (env : String → Option String) :
    Option String :=
  match envVarNameFor provider_type with
  | some v => env v
  | none => none

/-- `ProviderFactory._get_api_url_for_provider`. -/
def apiUrlFor (provider_type : String) : String :=
  ((([("sora", "https://api.openai.com/v1"),
      ("veo3", "https://generativelanguage.googleapis.com/v1beta"),
      ("wan", "https://api.wan.ai/v1"),
      ("SORA2", "https://api.openai.com/v1"),
      ("VEO3", "https://generativelanguage.googleapis.com/v1beta"),
      ("WAN", "https://api.wan.ai/v1")] :
    List (String × String)).find? (fun kv => kv.1 == provider_type)).map (·.2)).getD ""

/-- The two exception kinds of `ProviderFactory.create_provider`:
`ValueError` for an unknown identifier, `RuntimeError` for a missing
credential. -/
inductive FactoryError
  | unsupported (message : String)
  | keyNotConfigured (message : String)
deriving DecidableEq, Repr

/-- A successfully constructed provider instance (`provider_class(api_key=...,
api_url=...)`). -/
structure CreatedProvider where
  cls : ProviderClass
  api_key : String
  api_url : String
deriving DecidableEq, Repr

/-- `", ".join(cls._providers.keys())` at module-initialisation state. -/
def availableKeysText : String := "sora, veo3, wan, SORA2, VEO3, WAN"

/-- `ProviderFactory.create_provider` from `shared/providers/factory.py`. -/
def create_provider (provider_type : String) (api_key : Option String)
    (env : String → Option String) : Except FactoryError CreatedProvider :=
  match registryLookup provider_type with
  | none =>
    .error (.unsupported
      ("Unsupported provider: " ++ provider_type ++ ". Available: " ++ availableKeysText))
  | some cls =>
    let key := if strTruthy api_key then api_key else getApiKeyForProvider provider_type env
    if strTruthy key then
      .ok ⟨cls, key.getD "", apiUrlFor provider_type⟩
    else
      .error (.keyNotConfigured ("API key not configured for provider: " ++ provider_type))

/-- A provider object as held by the video service: either a real provider
instance from the factory, or the in-service `MockProvider`. -/
inductive ProviderInstance
  | real (cls : ProviderClass) (api_key : String)
  | mock (provider_type : String)
deriving DecidableEq, Repr

/-- FastAPI `HTTPException`. -/
structure HttpError where
  status_code : Nat
  detail : String
deriving DecidableEq, Repr

/-- Python substring containment (`needle in haystack`). -/
def strContains (needle haystack : String) : Bool :=
  let n := needle.toList
  let h := haystack.toList
  (List.range (h.length + 1)).any (fun i => (h.drop i).take n.length == n)

/-- `get_provider_instance` from `services/video/main.py`: wraps
`create_provider`, turning an unsupported identifier into HTTP 400 and a
missing credential into a silent `MockProvider` substitution (or HTTP 500
when the runtime error is of another shape for a non-veo3 provider). -/
def get_provider_instance (provider_type : String) (env : String → Option String) :
    Except HttpError ProviderInstance :=
  match create_provider provider_type none env with
  | .ok cp => .ok (.real cp.cls cp.api_key)
  | .error (.unsupported m) => .error ⟨400, "Provider error: " ++ m⟩
  | .error (.keyNotConfigured m) =>
    if strContains "API key not configured" m ||
        (provider_type == "VEO3" || provider_type == "veo3") then
      .ok (.mock provider_type)
    else
      .error ⟨500, "Provider setup failed: " ++ m⟩

/-- Claim C8: provider construction maps the aliases "SORA2" and "sora" to
the same backend class, fails with the unsupported-provider `ValueError`
for every identifier absent from the registry, and fails with the
credential-absent `RuntimeError` when the identifier is registered but no
truthy API key is passed in or found in the environment. -/
theorem claim_C8_factory (k : Option String) (env : String → Option String)
    (p q : String) (hp : registryLookup p = none) (hq : registryLookup q ≠ none)
    (hk : strTruthy k = false)
    (hqe : strTruthy (getApiKeyForProvider q env) = false) :
    ((create_provider "SORA2" k env).toOption.map (·.cls) =
      (create_provider "sora" k env).toOption.map (·.cls)) ∧
    (∀ cp, create_provider "SORA2" k env = .ok cp → cp.cls = ProviderClass.sora) ∧
    (create_provider p k env = .error (.unsupported
      ("Unsupported provider: " ++ p ++ ". Available: " ++ availableKeysText))) ∧
    (create_provider q k env = .error (.keyNotConfigured
      ("API key not configured for provider: " ++ q))) := by
  have hS2 : registryLookup "SORA2" = some ProviderClass.sora := rfl
  have hSo : registryLookup "sora" = some ProviderClass.sora := rfl
  have hK2 : getApiKeyForProvider "SORA2" env = env "OPENAI_API_KEY" := rfl
  have hKo : getApiKeyForProvider "sora" env = env "OPENAI_API_KEY" := rfl
  refine ⟨?_, ?_, ?_, ?_⟩
  · simp only [create_provider, hS2, hSo, hK2, hKo]
    cases h : strTruthy (if strTruthy k then k else env "OPENAI_API_KEY") <;>
      simp [h, Except.toOption]
  · intro cp hcp
    simp only [create_provider, hS2, hK2] at hcp
    split at hcp <;> (try split at hcp) <;> first
      | (cases hcp; rfl)
      | simp at hcp
  · simp only [create_provider, hp]
  · obtain ⟨c, hc⟩ := Option.ne_none_iff_exists'.mp hq
    simp only [create_provider, hc, hk, Bool.false_eq_true, if_false, hqe]

/-- Witness for claim C8 at the unknown identifier "kling", the known
identifier "wan", no passed key and an empty environment. -/
theorem claim_C8_witness :
    registryLookup "kling" = none ∧
    registryLookup "wan" ≠ none ∧
    strTruthy (none : Option String) = false ∧
    strTruthy (getApiKeyForProvider "wan" (fun _ => none)) = false ∧
    (create_provider "kling" none (fun _ => none) = .error (.unsupported
      ("Unsupported provider: " ++ "kling" ++ ". Available: " ++ availableKeysText))) ∧
    (create_provider "wan" none (fun _ => none) = .error (.keyNotConfigured
      ("API key not configured for provider: " ++ "wan"))) :=
  ⟨rfl, by decide, rfl, rfl,
    (claim_C8_factory none (fun _ => none) "kling" "wan" rfl (by decide) rfl rfl).2.2.1,
    (claim_C8_factory none (fun _ => none) "kling" "wan" rfl (by decide) rfl rfl).2.2.2⟩

/-! ## Provider submit error mapping (`sora_provider.py`, `wan_provider.py`) -/

/-- The four provider exception classes of `shared/providers/base.py`:
`ProviderError` (generic), `ProviderTimeout`, `ProviderQuotaExceeded`,
`ProviderInvalidRequest`. -/
inductive ErrKind
  | generic
  | timeout
  | quota
  | invalidReq
deriving DecidableEq, Repr

/-- A raised provider exception: its class, `message`, `provider_name` and
`error_code` constructor arguments. -/
structure ProvErr where
  kind : ErrKind
  message : String
  provider_name : String
  error_code : Option String
deriving DecidableEq, Repr

/-- `str(e)` for a provider exception: `[provider_name] message` (set by
`ProviderError.__init__`). -/
def ProvErr.toText (e : ProvErr) : String :=
  "[" ++ e.provider_name ++ "] " ++ e.message

/-- Outcome of the `httpx` POST issued by a provider's `generate_video`:
either a network timeout (`httpx.TimeoutException`) or a response carrying
an HTTP status code and the JSON-body fields the providers read (the parsed
error message with its fallbacks collapsed, the job id, the raw status
string, the progress value). -/
inductive HttpOutcome
  | timeout
  | response (status : Nat) (parsedErrMessage : Option String)
      (body_id : Option String) (body_status : Option String)
      (body_progress : Option Int)
deriving DecidableEq, Repr

/-- The successful return value of `generate_video` (the fields of
`VideoGenerationResponse` the service reads). -/
structure SubmitOk where
  generation_id : String
  status : VideoStatus
  progress_percentage : Int
deriving DecidableEq, Repr

/-- An exception escaping the body of the `try` block in a provider's
`generate_video`: either `httpx.HTTPStatusError` from
`response.raise_for_status()`, or a provider exception raised inside the
`try` itself. -/
inductive TryExn
  | httpStatus (status : Nat) (parsedErrMessage : Option String)
  | provRaise (e : ProvErr)
deriving DecidableEq, Repr

/-- Body of the `try` block of `SoraProvider.generate_video`. -/
def soraTryBody (status : Nat) (pm : Option String) (bid : Option String)
    (bst : Option String) (bpr : Option Int) : Except TryExn SubmitOk :=
  if status == 429 then
    .error (.provRaise ⟨.quota, "Rate limit or quota exceeded", "sora", some "quota_exceeded"⟩)
  else if 400 ≤ status then
    .error (.httpStatus status pm)
  else
    match bid with
    | none =>
      .error (.provRaise ⟨.generic, "Sora response missing id", "sora", some "bad_response"⟩)
    | some sid =>
      let st :=
        if (bst.getD "").toLower == "completed" then VideoStatus.completed
        else VideoStatus.processing
      .ok ⟨sid, st, bpr.getD 0⟩

/-- The message rewriting of `SoraProvider.generate_video`'s
`httpx.HTTPStatusError` handler. -/
def soraStatusMessage (status : Nat) (pm : Option String) : String :=
  if status == 401 then "Invalid API key (401)"
  else if status == 403 then "Access denied / forbidden (403)"
  else if status == 404 then "Sora endpoint not found (404) — check API URL/path"
  else if 500 ≤ status then "Sora service temporarily unavailable (5xx)"
  else pm.getD "Unknown error"

/-- `SoraProvider.generate_video` (`shared/providers/sora_provider.py`),
after `validate_request` has passed: the `try` body together with its
`except` clauses.  Note that the `except Exception` catch-all also catches
the provider exceptions raised inside the `try` (the 429 quota error and
the missing-id error) and re-raises them as generic `ProviderError`s. -/
def soraGenerateVideo (r : HttpOutcome) : Except ProvErr SubmitOk :=
  match r with
  | .timeout => .error ⟨.timeout, "Request timed out", "sora", some "timeout"⟩
  | .response status pm bid bst bpr =>
    match soraTryBody status pm bid bst bpr with
    | .ok g => .ok g
    | .error (.httpStatus s m) =>
      .error ⟨.generic, soraStatusMessage s m, "sora", some (toString s)⟩
    | .error (.provRaise e) =>
      .error ⟨.generic, "Unexpected error: " ++ e.toText, "sora", some "unexpected"⟩

/-- Body of the `try` block of `WANProvider.generate_video`; `freshId`
stands for the `uuid.uuid4()` fallback job id. -/
def wanTryBody (status : Nat) (pm : Option String) (bid : Option String)
    (freshId : String) : Except TryExn SubmitOk :=
  if status == 429 then
    .error (.provRaise ⟨.quota, "Rate limit or quota exceeded", "wan", some "quota_exceeded"⟩)
  else if 400 ≤ status then
    .error (.httpStatus status pm)
  else
    .ok ⟨bid.getD freshId, VideoStatus.processing, 0⟩

/-- The message rewriting of `WANProvider.generate_video`'s
`httpx.HTTPStatusError` handler. -/
def wanStatusMessage (status : Nat) (pm : Option String) : String :=
  let base := pm.getD ("HTTP " ++ toString status)
  if status == 400 then "Invalid request: " ++ base
  else if status == 401 then "Invalid API key"
  else if status == 403 then "Access denied or quota exceeded"
  else if 500 ≤ status then "WAN AI service temporarily unavailable"
  else base

/-- `WANProvider.generate_video` (`shared/providers/wan_provider.py`), after
`validate_request` has passed.  Its `except Exception` catch-all likewise
re-wraps the 429 quota error raised inside the `try` into a generic
`ProviderError`. -/
def wanGenerateVideo (r : HttpOutcome) (freshId : String) : Except ProvErr SubmitOk :=
  match r with
  | .timeout => .error ⟨.timeout, "Request timed out", "wan", some "timeout"⟩
  | .response status pm bid _ _ =>
    match wanTryBody status pm bid freshId with
    | .ok g => .ok g
    | .error (.httpStatus s m) =>
      .error ⟨.generic, wanStatusMessage s m, "wan", some (toString s)⟩
    | .error (.provRaise e) =>
      .error ⟨.generic, "Unexpected error: " ++ e.toText, "wan", some "unknown_error"⟩

/-- Counterexample to claim C6: on an HTTP 429 response neither provider's
`generate_video` raises `ProviderQuotaExceeded` — the quota exception
raised inside the `try` is intercepted by the same function's
`except Exception` clause and re-raised as a generic `ProviderError`; and
on an HTTP 400 response Sora raises a generic `ProviderError`, not
`ProviderInvalidRequest`. -/
theorem claim_C6_counterexample :
    soraGenerateVideo (.response 429 none none none none) =
      .error ⟨.generic, "Unexpected error: [sora] Rate limit or quota exceeded",
        "sora", some "unexpected"⟩ ∧
    wanGenerateVideo (.response 429 none none none none) "wan-fallback-id" =
      .error ⟨.generic, "Unexpected error: [wan] Rate limit or quota exceeded",
        "wan", some "unknown_error"⟩ ∧
    soraGenerateVideo (.response 400 (some "bad prompt") none none none) =
      .error ⟨.generic, "bad prompt", "sora", some "400"⟩ ∧
    ErrKind.generic ≠ ErrKind.quota ∧ ErrKind.generic ≠ ErrKind.invalidReq :=
  ⟨rfl, rfl, rfl, by decide, by decide⟩

/-- Claim C6 as amended: for both providers `generate_video` fails with
`ProviderTimeout` on a network timeout; on every HTTP error response
(429 and every other 4xx/5xx alike) it fails with a generic `ProviderError`
carrying a message and a provider-scoped error code; and no
`ProviderQuotaExceeded` or `ProviderInvalidRequest` ever escapes —
the quota exception meant for 429 is re-wrapped by the catch-all handler
into a generic `ProviderError`. -/
theorem claim_C6_amended (r : HttpOutcome) (freshId : String) (status : Nat)
    (pm bid bst : Option String) (bpr : Option Int) (hs : 400 ≤ status) :
    (soraGenerateVideo .timeout =
      .error ⟨.timeout, "Request timed out", "sora", some "timeout"⟩) ∧
    (wanGenerateVideo .timeout freshId =
      .error ⟨.timeout, "Request timed out", "wan", some "timeout"⟩) ∧
    (∃ e, soraGenerateVideo (.response status pm bid bst bpr) = .error e ∧
      e.kind = ErrKind.generic ∧ e.provider_name = "sora" ∧ e.error_code.isSome) ∧
    (∃ e, wanGenerateVideo (.response status pm bid bst bpr) freshId = .error e ∧
      e.kind = ErrKind.generic ∧ e.provider_name = "wan" ∧ e.error_code.isSome) ∧
    (∀ e, soraGenerateVideo r = .error e →
      e.kind ≠ ErrKind.quota ∧ e.kind ≠ ErrKind.invalidReq) ∧
    (∀ e, wanGenerateVideo r freshId = .error e →
      e.kind ≠ ErrKind.quota ∧ e.kind ≠ ErrKind.invalidReq) := by
  refine ⟨rfl, rfl, ?_, ?_, ?_, ?_⟩
  · simp only [soraGenerateVideo, soraTryBody]
    by_cases h429 : status == 429
    · simp only [h429, if_true]
      exact ⟨_, rfl, rfl, rfl, rfl⟩
    · simp only [h429, Bool.false_eq_true, if_false, hs, if_pos]
      exact ⟨_, rfl, rfl, rfl, rfl⟩
  · simp only [wanGenerateVideo, wanTryBody]
    by_cases h429 : status == 429
    · simp only [h429, if_true]
      exact ⟨_, rfl, rfl, rfl, rfl⟩
    · simp only [h429, Bool.false_eq_true, if_false, hs, if_pos]
      exact ⟨_, rfl, rfl, rfl, rfl⟩
  · intro e he
    cases r with
    | timeout =>
      cases he
      exact ⟨by decide, by decide⟩
    | response s pm2 bid2 bst2 bpr2 =>
      simp only [soraGenerateVideo] at he
      split at he
      · cases he
      · cases he; exact ⟨by simp, by simp⟩
      · cases he; exact ⟨by simp, by simp⟩
  · intro e he
    cases r with
    | timeout =>
      cases he
      exact ⟨by decide, by decide⟩
    | response s pm2 bid2 bst2 bpr2 =>
      simp only [wanGenerateVideo] at he
      split at he
      · cases he
      · cases he; exact ⟨by simp, by simp⟩
      · cases he; exact ⟨by simp, by simp⟩

/-- Witness for the amended claim C6 at an HTTP 503 response outcome. -/
theorem claim_C6_amended_witness :
    400 ≤ 503 ∧
    (∃ e, soraGenerateVideo (.response 503 none none none none) = .error e ∧
      e.kind = ErrKind.generic ∧ e.provider_name = "sora" ∧ e.error_code.isSome) :=
  ⟨by decide,
    (claim_C6_amended (.response 503 none none none none) "wf" 503
      none none none none (by decide)).2.2.1⟩

/-- `MockProvider.validate_request` (`services/video/main.py`): accepts
every request. -/
def mockValidateRequest (_ : GenRequest) : Except String Bool := .ok true

/-- `MockProvider.calculate_cost` (`services/video/main.py`):
`duration_seconds * 0.01`. -/
def mockCalculateCost (r : GenRequest) : ℚ := (r.duration_seconds : ℚ) * (1 / 100)

/-! ## Provider request validation (`validate_request` of each provider) -/

/-- `abs(aspect_ratio - a) < tol` checks of the validators, in exact
rationals (the Python source computes them in binary floating point; no
claim depends on the boundary values). -/
def aspectClose (w h : Nat) (a tol : ℚ) : Prop :=
  |(w : ℚ) / (h : ℚ) - a| < tol

instance (w h : Nat) (a tol : ℚ) : Decidable (aspectClose w h a tol) := by
  unfold aspectClose
  infer_instance

/-- `SoraProvider.validate_request` (`shared/providers/sora_provider.py`);
errors are the raised `ValueError` messages. -/
def soraValidateRequest (r : GenRequest) : Except String Bool :=
  if 20 < r.duration_seconds then
    .error ("Duration " ++ toString r.duration_seconds ++ "s exceeds maximum 20s for Sora")
  else if r.duration_seconds = 0 then
    .error "Duration must be positive"
  else if r.resolution_width = 0 ∨ r.resolution_height = 0 then
    .error "Resolution must be positive"
  else if ¬ (aspectClose r.resolution_width r.resolution_height (16 / 9) (3 / 20) ∨
      aspectClose r.resolution_width r.resolution_height (9 / 16) (3 / 20)) then
    .error "Aspect ratio not supported by Sora (expected ~16:9 or ~9:16)"
  else if r.prompt == "" || r.prompt.trim == "" then
    .error "Prompt cannot be empty"
  else if 1000 < r.prompt.length then
    .error "Prompt too long (max 1000 characters)"
  else
    .ok true

/-- `WANProvider.validate_request` (`shared/providers/wan_provider.py`). -/
def wanValidateRequest (r : GenRequest) : Except String Bool :=
  if 30 < r.duration_seconds then
    .error ("Duration " ++ toString r.duration_seconds ++ "s exceeds maximum 30s for WAN AI")
  else if r.duration_seconds = 0 then
    .error "Duration must be positive"
  else if 1920 < r.resolution_width ∨ 1080 < r.resolution_height then
    .error ("Resolution " ++ toString r.resolution_width ++ "x" ++
      toString r.resolution_height ++ " exceeds maximum 1920x1080 for WAN AI")
  else if r.prompt == "" || r.prompt.trim == "" then
    .error "Prompt cannot be empty"
  else if 1000 < r.prompt.length then
    .error "Prompt too long (max 1000 characters)"
  else
    .ok true

/-- `Veo3Provider.validate_request` (`shared/providers/veo3_provider.py`). -/
def veo3ValidateRequest (r : GenRequest) : Except String Bool :=
  if 60 < r.duration_seconds then
    .error ("Duration " ++ toString r.duration_seconds ++ "s exceeds maximum 60s for Veo 3")
  else if r.duration_seconds = 0 then
    .error "Duration must be positive"
  else if 1920 < r.resolution_width ∨ 1080 < r.resolution_height then
    .error ("Resolution " ++ toString r.resolution_width ++ "x" ++
      toString r.resolution_height ++ " exceeds maximum 1920x1080 for Veo 3")
  else if ¬ (aspectClose r.resolution_width r.resolution_height (16 / 9) (1 / 10) ∨
      aspectClose r.resolution_width r.resolution_height (9 / 16) (1 / 10)) then
    .error "Veo 3 only supports 16:9 and 9:16 aspect ratios"
  else if r.prompt == "" || r.prompt.trim == "" then
    .error "Prompt cannot be empty"
  else if 2000 < r.prompt.length then
    .error "Prompt too long (max 2000 characters)"
  else
    .ok true

/-- Capability record of each registered provider class. -/
def ProviderClass.capabilities : ProviderClass → Capabilities
  | .sora => soraCapabilities
  | .veo3 => veo3Capabilities
  | .wan => wanCapabilities

/-- `validate_request` of each registered provider class. -/
def ProviderClass.validate : ProviderClass → GenRequest → Except String Bool
  | .sora => soraValidateRequest
  | .veo3 => veo3ValidateRequest
  | .wan => wanValidateRequest

/-- `provider.validate_request(...)` as the video service calls it. -/
def ProviderInstance.validate_request : ProviderInstance → GenRequest → Except String Bool
  | .real cls _, r => cls.validate r
  | .mock _, r => mockValidateRequest r

/-- `provider.calculate_cost(...)` as the video service calls it: the
inherited `BaseVideoProvider.calculate_cost` for real providers,
`MockProvider.calculate_cost` for the mock. -/
def ProviderInstance.calculate_cost : ProviderInstance → GenRequest → ℚ
  | .real cls _, r => VideoGen.calculate_cost cls.capabilities r
  | .mock _, r => mockCalculateCost r

/-! ## Database model (`shared/database/models.py`) -/

/-- `users` row (the columns the video service reads/writes). -/
structure UserRow where
  id : String
  credits_balance : ℚ
deriving DecidableEq, Repr

/-- `providers` row (the columns the video service reads). -/
structure ProviderRow where
  id : String
  ptype : String
  is_active : Bool
deriving DecidableEq, Repr

/-- `images` row (the columns the video service reads). -/
structure ImageRow where
  id : String
  user_id : String
deriving DecidableEq, Repr

/-- `videos` row (`Video` model); timestamps are abstract ticks. -/
structure VideoRow where
  id : String
  user_id : String
  image_id : Option String
  provider_id : String
  prompt : String
  duration_seconds : Nat
  resolution_width : Nat
  resolution_height : Nat
  fps : Nat
  status : JobStatus
  progress_percentage : Int
  error_message : Option String
  provider_job_id : Option String
  file_size : Option Nat
  credits_cost : ℚ
  credits_refunded : ℚ
  created_at : Nat
  started_at : Option Nat
  completed_at : Option Nat
deriving DecidableEq, Repr

/-- `transactions` row (`Transaction` model, the credit ledger). -/
structure TransactionRow where
  user_id : String
  video_id : Option String
  ttype : TransactionType
  amount : ℚ
  balance_after : ℚ
deriving DecidableEq, Repr

/-- The database state visible to the video service. -/
structure DbState where
  users : List UserRow
  providers : List ProviderRow
  images : List ImageRow
  videos : List VideoRow
  transactions : List TransactionRow
deriving DecidableEq, Repr

/-! ## Admission: `generate_video` endpoint (`services/video/main.py`) -/

/-- The pydantic `VideoGenerationRequest` of the video service. -/
structure AdmitRequest where
  prompt : String
  duration_seconds : Nat
  resolution_width : Nat
  resolution_height : Nat
  fps : Nat
  provider : String
  image_id : Option String
deriving DecidableEq, Repr

/-- The `ProviderRequest` the service builds from an admission request
(`image_url` is always `None` while S3 is disabled). -/
def AdmitRequest.toProviderRequest (r : AdmitRequest) (image_url : Option String) :
    GenRequest :=
  ⟨r.prompt, r.duration_seconds, r.resolution_width, r.resolution_height, r.fps, image_url⟩

/-- The fields of the service's `VideoGenerationResponse` that admission
fills in. -/
structure AdmitResponse where
  id : String
  status : String
  progress_percentage : Int
  estimated_completion_time : Option Int
  credits_cost : ℚ
deriving DecidableEq, Repr

/-- An exception escaping the validation/pricing `try` block of
`generate_video`: a `ValueError` (surfaced as HTTP 400 with the verbatim
message) or any other exception, including the `HTTPException`s raised by
`get_provider_instance` and the image lookup inside the same `try`
(surfaced as HTTP 500 "Provider validation failed: ..."). -/
inductive AdmissionInnerErr
  | valueErr (msg : String)
  | wrapped (origin : String)
deriving DecidableEq, Repr

/-- The body of the validation/pricing `try` block of `generate_video`:
resolve the provider instance, check the optional source image, validate
the request and compute its cost. -/
def admissionInner (env : String → Option String) (db : DbState) (uid : String)
    (req : AdmitRequest) : Except AdmissionInnerErr (ProviderInstance × ℚ) :=
  match get_provider_instance req.provider env with
  | .error h => .error (.wrapped (toString h.status_code ++ ": " ++ h.detail))
  | .ok provider =>
    let imageOk : Except AdmissionInnerErr Unit :=
      match req.image_id with
      | none => .ok ()
      | some iid =>
        match (db.images.filter (fun im => im.id == iid && im.user_id == uid)).head? with
        | none => .error (.wrapped "404: Image not found")
        | some _ => .ok ()
    match imageOk with
    | .error e => .error e
    | .ok _ =>
      let provider_request := req.toProviderRequest none
      match provider.validate_request provider_request with
      | .error m => .error (.valueErr m)
      | .ok _ => .ok (provider, provider.calculate_cost provider_request)

/-- The PENDING `Video` row persisted at admission. -/
def mkAdmittedVideo (freshId uid : String) (req : AdmitRequest)
    (provider_record : ProviderRow) (credits_cost : ℚ) : VideoRow :=
  { id := freshId
    user_id := uid
    image_id := req.image_id
    provider_id := provider_record.id
    prompt := req.prompt
    duration_seconds := req.duration_seconds
    resolution_width := req.resolution_width
    resolution_height := req.resolution_height
    fps := req.fps
    status := .pending
    progress_percentage := 0
    error_message := none
    provider_job_id := none
    file_size := none
    credits_cost := credits_cost
    credits_refunded := 0
    created_at := 0
    started_at := none
    completed_at := none }

/-- `generate_video` (`services/video/main.py`): the synchronous admission
path.  Returns the updated database state, the HTTP result, and the list of
scheduled background tasks (video ids passed to
`background_tasks.add_task`). -/
def generate_video (env : String → Option String) (db : DbState)
    (userIdHeader : Option String) (req : AdmitRequest) (freshId : String) :
    DbState × Except HttpError AdmitResponse × List String :=
  match userIdHeader with
  | none => (db, .error ⟨401, "Authentication required"⟩, [])
  | some uid =>
    match (db.users.filter (fun u => u.id == uid)).head? with
    | none => (db, .error ⟨401, "User not found"⟩, [])
    | some user =>
      match (db.providers.filter (fun p => p.ptype == req.provider && p.is_active)).head? with
      | none => (db, .error ⟨400, "Provider " ++ req.provider ++ " not available"⟩, [])
      | some provider_record =>
        match admissionInner env db uid req with
        | .error (.valueErr m) => (db, .error ⟨400, m⟩, [])
        | .error (.wrapped m) =>
          (db, .error ⟨500, "Provider validation failed: " ++ m⟩, [])
        | .ok (_, credits_cost) =>
          if user.credits_balance < credits_cost then
            (db, .error ⟨402, "Insufficient credits. Required: " ++ toString credits_cost ++
              ", Available: " ++ toString user.credits_balance⟩, [])
          else
            ({ db with
                users := db.users.map (fun u => if u.id == uid then
                  { user with credits_balance := user.credits_balance - credits_cost } else u)
                videos := db.videos ++
                  [mkAdmittedVideo freshId uid req provider_record credits_cost] },
              .ok ⟨freshId, "pending", 0, some ((req.duration_seconds : Int) * 30), credits_cost⟩,
              [freshId])

/-- Claim C4: whenever admission reaches the pricing step and the user's
balance is below the computed cost, `generate_video` fails synchronously
with the HTTP 402 insufficient-credits error and has no side effect: the
database state (balance, videos, ledger) is returned unchanged and no
background task is scheduled. -/
theorem claim_C4_insufficient_credits (env : String → Option String) (db : DbState)
    (uid : String) (req : AdmitRequest) (freshId : String) (user : UserRow)
    (pr : ProviderRow) (prov : ProviderInstance) (cost : ℚ)
    (hu : (db.users.filter (fun u => u.id == uid)).head? = some user)
    (hp : (db.providers.filter (fun p => p.ptype == req.provider && p.is_active)).head? =
      some pr)
    (hin : admissionInner env db uid req = .ok (prov, cost))
    (hb : user.credits_balance < cost) :
    generate_video env db (some uid) req freshId =
      (db, .error ⟨402, "Insufficient credits. Required: " ++ toString cost ++
        ", Available: " ++ toString user.credits_balance⟩, []) := by
  simp only [generate_video, hu, hp, hin, if_pos hb]

/-- Helper: the successful admission path — the balance check passes, the
user is debited, the PENDING video row is appended and the background task
is scheduled. -/
theorem generate_video_ok (env : String → Option String) (db : DbState)
    (uid : String) (req : AdmitRequest) (freshId : String) (user : UserRow)
    (pr : ProviderRow) (prov : ProviderInstance) (cost : ℚ)
    (hu : (db.users.filter (fun u => u.id == uid)).head? = some user)
    (hp : (db.providers.filter (fun p => p.ptype == req.provider && p.is_active)).head? =
      some pr)
    (hin : admissionInner env db uid req = .ok (prov, cost))
    (hb : ¬ user.credits_balance < cost) :
    generate_video env db (some uid) req freshId =
      ({ db with
          users := db.users.map (fun u => if u.id == uid then
            { user with credits_balance := user.credits_balance - cost } else u)
          videos := db.videos ++ [mkAdmittedVideo freshId uid req pr cost] },
        .ok ⟨freshId, "pending", 0, some ((req.duration_seconds : Int) * 30), cost⟩,
        [freshId]) := by
  simp only [generate_video, hu, hp, hin, if_neg hb]

/-- Database used by the C4 witness: one user with balance 0.01, one active
sora provider row. -/
def c4Db : DbState :=
  { users := [⟨"u1", 1 / 100⟩]
    providers := [⟨"p-sora", "sora", true⟩]
    images := []
    videos := []
    transactions := [] }

/-- Request used by the C4 witness. -/
def c4Req : AdmitRequest := ⟨"hello world", 5, 1280, 720, 24, "sora", none⟩

/-- An empty process environment (no API keys configured). -/
def envEmpty : String → Option String := fun _ => none

/-- Witness for claim C4: a user with balance 0.01 requesting a 5-second
video priced 0.05 (mock pricing, no key configured) is rejected with HTTP
402 and the state is unchanged. -/
theorem claim_C4_witness :
    ((c4Db.users.filter (fun u => u.id == "u1")).head? = some ⟨"u1", 1 / 100⟩) ∧
    ((c4Db.providers.filter (fun p => p.ptype == c4Req.provider && p.is_active)).head? =
      some ⟨"p-sora", "sora", true⟩) ∧
    (admissionInner envEmpty c4Db "u1" c4Req =
      .ok (.mock "sora", mockCalculateCost (c4Req.toProviderRequest none))) ∧
    ((⟨"u1", 1 / 100⟩ : UserRow).credits_balance <
      mockCalculateCost (c4Req.toProviderRequest none)) ∧
    generate_video envEmpty c4Db (some "u1") c4Req "v1" =
      (c4Db, .error ⟨402, "Insufficient credits. Required: " ++
        toString (mockCalculateCost (c4Req.toProviderRequest none)) ++
        ", Available: " ++ toString ((⟨"u1", 1 / 100⟩ : UserRow).credits_balance)⟩, []) :=
  ⟨rfl, rfl, by rfl,
    by norm_num [mockCalculateCost, c4Req, AdmitRequest.toProviderRequest],
    claim_C4_insufficient_credits envEmpty c4Db "u1" c4Req "v1"
      ⟨"u1", 1 / 100⟩ ⟨"p-sora", "sora", true⟩ (.mock "sora")
      (mockCalculateCost (c4Req.toProviderRequest none))
      rfl rfl (by rfl)
      (by norm_num [mockCalculateCost, c4Req, AdmitRequest.toProviderRequest])⟩

theorem strTruthy_none : strTruthy none = false := rfl

/-- Helper: a registered provider with no truthy credential makes
`create_provider` raise the missing-key `RuntimeError`. -/
theorem create_provider_no_key (p : String) (env : String → Option String)
    (c : ProviderClass) (hc : registryLookup p = some c)
    (hk : strTruthy (getApiKeyForProvider p env) = false) :
    create_provider p none env =
      .error (.keyNotConfigured ("API key not configured for provider: " ++ p)) := by
  simp only [create_provider, hc, strTruthy_none, Bool.false_eq_true, if_false, hk]

/-- Helper: a registered provider with no truthy credential makes
`get_provider_instance` substitute the mock (the `RuntimeError` message
contains "API key not configured"). -/
theorem mock_of_no_key (p : String) (env : String → Option String)
    (c : ProviderClass) (hc : registryLookup p = some c)
    (hk : strTruthy (getApiKeyForProvider p env) = false)
    (hsc : strContains "API key not configured"
      ("API key not configured for provider: " ++ p) = true) :
    get_provider_instance p env = .ok (.mock p) := by
  simp only [get_provider_instance, create_provider_no_key p env c hc hk, hsc,
    Bool.true_or, if_true]

/-- Environment used by the C9 counterexample: the veo3 credential is
configured. -/
def envVeoKey : String → Option String :=
  fun v => if v == "GOOGLE_AI_API_KEY" then some "gk" else none

/-- Counterexample to claim C9: when `GOOGLE_AI_API_KEY` is configured,
`get_provider_instance "veo3"` returns the real Veo3 provider, not the
mock — the mock substitution is not unconditional for "veo3". -/
theorem claim_C9_counterexample :
    get_provider_instance "veo3" envVeoKey = .ok (.real .veo3 "gk") ∧
    get_provider_instance "veo3" envVeoKey ≠ .ok (.mock "veo3") := by
  refine ⟨rfl, ?_⟩
  intro h
  rw [show get_provider_instance "veo3" envVeoKey = .ok (.real .veo3 "gk") from rfl] at h
  simp at h

/-- Claim C9 as amended: whenever the resolved provider identifier is
registered and its API credential is absent (falsy) in the environment, the
service silently substitutes `MockProvider`, whose `validate_request`
accepts every request and whose `calculate_cost` returns
`duration_seconds * 0.01`; an admission that reaches the pricing step with
such an environment charges exactly that amount (for "veo3"/"VEO3" with a
configured credential the real provider is used instead — see the
counterexample). -/
theorem claim_C9_amended (ptype : String) (env : String → Option String) (r : GenRequest)
    (hreg : ptype = "sora" ∨ ptype = "veo3" ∨ ptype = "wan" ∨
      ptype = "SORA2" ∨ ptype = "VEO3" ∨ ptype = "WAN")
    (hkey : strTruthy (getApiKeyForProvider ptype env) = false) :
    get_provider_instance ptype env = .ok (.mock ptype) ∧
    (ProviderInstance.mock ptype).validate_request r = .ok true ∧
    (ProviderInstance.mock ptype).calculate_cost r = (r.duration_seconds : ℚ) * (1 / 100) ∧
    (∀ (db : DbState) (a : AdmitRequest) (uid freshId : String)
      (user : UserRow) (pr : ProviderRow),
      a.provider = ptype → a.image_id = none →
      (db.users.filter (fun u => u.id == uid)).head? = some user →
      (db.providers.filter (fun p => p.ptype == a.provider && p.is_active)).head? = some pr →
      ¬ user.credits_balance < (a.duration_seconds : ℚ) * (1 / 100) →
      (generate_video env db (some uid) a freshId).2.1 =
        .ok ⟨freshId, "pending", 0, some ((a.duration_seconds : Int) * 30),
          (a.duration_seconds : ℚ) * (1 / 100)⟩) := by
  have hmock : get_provider_instance ptype env = .ok (.mock ptype) := by
    rcases hreg with h | h | h | h | h | h <;> subst h <;>
      exact mock_of_no_key _ env _ rfl hkey (by decide)
  refine ⟨hmock, rfl, rfl, ?_⟩
  intro db a uid freshId user pr hap haimg hu hp hbal
  have hinner : admissionInner env db uid a =
      .ok (.mock ptype, (a.duration_seconds : ℚ) * (1 / 100)) := by
    simp only [admissionInner, hap, hmock, haimg, ProviderInstance.validate_request,
      mockValidateRequest, ProviderInstance.calculate_cost, mockCalculateCost,
      AdmitRequest.toProviderRequest]
  simp only [generate_video, hu, hp, hinner, if_neg hbal]

/-- Witness for the amended claim C9 at the identifier "sora" with an empty
environment and a concrete 5-second request. -/
theorem claim_C9_amended_witness :
    ("sora" = "sora" ∨ "sora" = "veo3" ∨ "sora" = "wan" ∨
      "sora" = "SORA2" ∨ "sora" = "VEO3" ∨ "sora" = "WAN") ∧
    strTruthy (getApiKeyForProvider "sora" envEmpty) = false ∧
    get_provider_instance "sora" envEmpty = .ok (.mock "sora") ∧
    (ProviderInstance.mock "sora").calculate_cost ⟨"hi", 5, 1280, 720, 24, none⟩ =
      ((⟨"hi", 5, 1280, 720, 24, none⟩ : GenRequest).duration_seconds : ℚ) * (1 / 100) :=
  ⟨Or.inl rfl, rfl,
    (claim_C9_amended "sora" envEmpty ⟨"hi", 5, 1280, 720, 24, none⟩ (Or.inl rfl) rfl).1,
    (claim_C9_amended "sora" envEmpty ⟨"hi", 5, 1280, 720, 24, none⟩ (Or.inl rfl) rfl).2.2.1⟩

/-! ## Background task: `process_video_generation` (`services/video/main.py`) -/

/-- The fields of a provider's `get_status` response that the poll loop
reads. -/
structure StatusResp where
  status : VideoStatus
  progress_percentage : Int
  error_message : Option String
deriving DecidableEq, Repr

/-- The fields of a provider's `generate_video` response that the poll loop
reads: `generation_id` and the `"sora_job_id"` metadata entry. -/
structure GenResp where
  generation_id : String
  sora_job_id : Option String
deriving DecidableEq, Repr

/-- Observable behaviour of the provider object during one background task:
the result of `generate_video`, of each `get_status` call (indexed by the
0-based poll attempt) and of `download_video` (bytes as a list of byte
values, `none` standing for Python `None`).  Raised provider exceptions are
the `error` side. -/
structure ProviderRun where
  generate : Except ProvErr GenResp
  poll : Nat → Except ProvErr StatusResp
  download : Except ProvErr (Option (List Nat))

/-- Python truthiness of `video_content : Optional[bytes]`: falsy when
`None` or empty. -/
def bytesTruthy : Option (List Nat) → Bool
  | none => false
  | some bs => !bs.isEmpty

/-- Python `a or b` on an optional string: the default replaces both `None`
and the empty string. -/
def pyStrOr (o : Option String) (dft : String) : String :=
  match o with
  | none => dft
  | some m => if m == "" then dft else m

/-- State threaded through the poll loop: the video row being mutated, the
trace of persisted `progress_percentage` values, the number of
`get_status` calls made, and the total seconds passed to `asyncio.sleep`. -/
structure LoopState where
  video : VideoRow
  persisted_progress : List Int
  polls : Nat
  slept_seconds : Nat
deriving DecidableEq, Repr

/-- `await asyncio.sleep(5); attempt += 1` at the top of each loop
iteration. -/
def tick (st : LoopState) : LoopState :=
  { st with polls := st.polls + 1, slept_seconds := st.slept_seconds + 5 }

/-- `video.progress_percentage = status_response.progress_percentage;
db.commit()`. -/
def persistProgress (st : LoopState) (p : Int) : LoopState :=
  { st with
    video := { st.video with progress_percentage := p },
    persisted_progress := st.persisted_progress ++ [p] }

/-- Mark the video FAILED with an error message. -/
def failVideo (st : LoopState) (msg : String) : LoopState :=
  { st with
    video := { st.video with status := JobStatus.failed, error_message := some msg } }

/-- The COMPLETED branch of the loop body: `download_video` and the
truthiness check of the returned bytes.  A raised `ProviderError` reaches
the `except` handler; truthy bytes finish the job; falsy bytes
(`None`/empty) mark it FAILED. -/
def downloadStop (st : LoopState) (d : Except ProvErr (Option (List Nat))) : LoopState :=
  match d with
  | .error e => failVideo st e.toText
  | .ok content =>
    if bytesTruthy content then
      { st with
        video := { st.video with
          status := JobStatus.completed,
          completed_at := some 1,
          file_size := some ((content.getD []).length) } }
    else
      failVideo st "Failed to download generated video"

/-- One iteration of the `while attempt < max_attempts` loop: sleep 5
seconds, poll, persist the reported progress, and either stop (`inr`, a
`break` or a raised provider exception reaching the `except` handler) or
continue (`inl`). -/
def pollStep (pr : ProviderRun) (st : LoopState) : LoopState ⊕ LoopState :=
  match pr.poll st.polls with
  | .error e => .inr (failVideo (tick st) e.toText)
  | .ok s =>
    let st2 := persistProgress (tick st) s.progress_percentage
    if s.status = VideoStatus.completed then
      .inr (downloadStop st2 pr.download)
    else if s.status = VideoStatus.failed then
      .inr (failVideo st2 (pyStrOr s.error_message "Video generation failed"))
    else
      .inl st2

theorem downloadStop_counters (st : LoopState) (d : Except ProvErr (Option (List Nat))) :
    (downloadStop st d).polls = st.polls ∧
    (downloadStop st d).slept_seconds = st.slept_seconds ∧
    ((downloadStop st d).video.status = JobStatus.failed ∨
      (downloadStop st d).video.status = JobStatus.completed) := by
  unfold downloadStop
  split
  · exact ⟨rfl, rfl, Or.inl rfl⟩
  · split
    · exact ⟨rfl, rfl, Or.inr rfl⟩
    · exact ⟨rfl, rfl, Or.inl rfl⟩

theorem downloadStop_falsy (st : LoopState) (d : Except ProvErr (Option (List Nat)))
    (c : Option (List Nat)) (hd : d = .ok c) (hb : bytesTruthy c = false) :
    downloadStop st d = failVideo st "Failed to download generated video" := by
  subst hd
  simp only [downloadStop, hb, Bool.false_eq_true, if_false]

/-- The poll loop with its attempt budget (`max_attempts = 120`); running
out of budget is the `while`'s `else` clause: FAILED with the fixed
"Video generation timed out" message. -/
def pollLoop (pr : ProviderRun) (fuel : Nat) (st : LoopState) : LoopState :=
  match fuel with
  | 0 => failVideo st "Video generation timed out"
  | fuel + 1 =>
    match pollStep pr st with
    | .inr stop => stop
    | .inl next => pollLoop pr fuel next

theorem pollLoop_zero (pr : ProviderRun) (st : LoopState) :
    pollLoop pr 0 st = failVideo st "Video generation timed out" := rfl

theorem pollLoop_succ (pr : ProviderRun) (n : Nat) (st : LoopState) :
    pollLoop pr (n + 1) st =
      match pollStep pr st with
      | .inr stop => stop
      | .inl next => pollLoop pr n next := rfl

/-- `process_video_generation` (`services/video/main.py`): mark the video
PROCESSING, call the provider's `generate_video`, store the
`"sora_job_id"`, then run the poll loop; a provider exception from
`generate_video` is caught by the `except` handler and marks the job
FAILED with `str(e)`. -/
def process_video_generation (pr : ProviderRun) (v0 : VideoRow) : LoopState :=
  let v1 := { v0 with status := JobStatus.processing, started_at := some 1 }
  match pr.generate with
  | .error e =>
    ⟨{ v1 with status := JobStatus.failed, error_message := some e.toText }, [], 0, 0⟩
  | .ok g =>
    let v2 := { v1 with provider_job_id := g.sora_job_id }
    pollLoop pr 120 ⟨v2, [], 0, 0⟩

/-- The background task at the database level: it re-reads the video row by
id and only ever writes that row back (no user balance write, no ledger
write anywhere in the function). -/
def process_video_generation_db (pr : ProviderRun) (db : DbState) (video_id : String) :
    DbState :=
  match (db.videos.filter (fun v => v.id == video_id)).head? with
  | none => db
  | some v =>
    let res := process_video_generation pr v
    { db with videos := db.videos.map (fun w => if w.id == video_id then res.video else w) }

/-- The poll at index `k` returns a non-terminal status. -/
def isNonTerminalPoll (pr : ProviderRun) (k : Nat) : Prop :=
  ∃ s, pr.poll k = .ok s ∧ s.status ≠ VideoStatus.completed ∧ s.status ≠ VideoStatus.failed

/-- The poll at index `k` returns a terminal status. -/
def isTerminalPoll (pr : ProviderRun) (k : Nat) : Prop :=
  ∃ s, pr.poll k = .ok s ∧
    (s.status = VideoStatus.completed ∨ s.status = VideoStatus.failed)

theorem pollStep_inl_polls {pr : ProviderRun} {st next : LoopState}
    (h : pollStep pr st = .inl next) :
    next.polls = st.polls + 1 ∧ next.slept_seconds = st.slept_seconds + 5 := by
  simp only [pollStep] at h
  split at h
  · cases h
  · split at h
    · cases h
    · split at h
      · cases h
      · cases h
        exact ⟨rfl, rfl⟩

theorem pollStep_inr_polls {pr : ProviderRun} {st stop : LoopState}
    (h : pollStep pr st = .inr stop) :
    stop.polls = st.polls + 1 ∧ stop.slept_seconds = st.slept_seconds + 5 := by
  simp only [pollStep] at h
  split at h
  · cases h; exact ⟨rfl, rfl⟩
  · split at h
    · cases h
      obtain ⟨h1, h2, _⟩ := downloadStop_counters
        (persistProgress (tick st) _) pr.download
      exact ⟨h1, h2⟩
    · split at h
      · cases h; exact ⟨rfl, rfl⟩
      · cases h

theorem pollStep_inr_terminal {pr : ProviderRun} {st stop : LoopState}
    (h : pollStep pr st = .inr stop) :
    stop.video.status = JobStatus.failed ∨ stop.video.status = JobStatus.completed := by
  simp only [pollStep] at h
  split at h
  · cases h; exact Or.inl rfl
  · split at h
    · cases h
      exact (downloadStop_counters (persistProgress (tick st) _) pr.download).2.2
    · split at h
      · cases h; exact Or.inl rfl
      · cases h

theorem pollStep_nonterminal {pr : ProviderRun} {st : LoopState}
    (h : isNonTerminalPoll pr st.polls) :
    ∃ s, pr.poll st.polls = .ok s ∧
      pollStep pr st = .inl (persistProgress (tick st) s.progress_percentage) := by
  obtain ⟨s, hs, hc, hf⟩ := h
  refine ⟨s, hs, ?_⟩
  simp only [pollStep, hs, if_neg hc, if_neg hf]

theorem pollStep_terminal {pr : ProviderRun} {st : LoopState}
    (h : isTerminalPoll pr st.polls) :
    ∃ stop, pollStep pr st = .inr stop := by
  obtain ⟨s, hs, hterm⟩ := h
  by_cases hc : s.status = VideoStatus.completed
  · simp only [pollStep, hs, if_pos hc]
    exact ⟨_, rfl⟩
  · have hf : s.status = VideoStatus.failed := hterm.resolve_left hc
    simp only [pollStep, hs, if_neg hc, if_pos hf]
    exact ⟨_, rfl⟩

theorem pollLoop_polls_le (pr : ProviderRun) :
    ∀ (fuel : Nat) (st : LoopState), (pollLoop pr fuel st).polls ≤ st.polls + fuel := by
  intro fuel
  induction fuel with
  | zero => intro st; exact Nat.le_refl _
  | succ n ih =>
    intro st
    rw [pollLoop_succ]
    cases hstep : pollStep pr st with
    | inr stop =>
      have := (pollStep_inr_polls hstep).1
      simp only []
      omega
    | inl next =>
      have h1 := (pollStep_inl_polls hstep).1
      have h2 := ih next
      simp only []
      omega

theorem pollLoop_slept (pr : ProviderRun) :
    ∀ (fuel : Nat) (st : LoopState), st.slept_seconds = 5 * st.polls →
      (pollLoop pr fuel st).slept_seconds = 5 * (pollLoop pr fuel st).polls := by
  intro fuel
  induction fuel with
  | zero => intro st h; exact h
  | succ n ih =>
    intro st h
    rw [pollLoop_succ]
    cases hstep : pollStep pr st with
    | inr stop =>
      obtain ⟨h1, h2⟩ := pollStep_inr_polls hstep
      simp only []
      omega
    | inl next =>
      obtain ⟨h1, h2⟩ := pollStep_inl_polls hstep
      exact ih next (by omega)

theorem pollLoop_timeout (pr : ProviderRun) :
    ∀ (fuel : Nat) (st : LoopState),
      (∀ k, st.polls ≤ k → k < st.polls + fuel → isNonTerminalPoll pr k) →
      (pollLoop pr fuel st).video.status = JobStatus.failed ∧
      (pollLoop pr fuel st).video.error_message = some "Video generation timed out" ∧
      (pollLoop pr fuel st).polls = st.polls + fuel := by
  intro fuel
  induction fuel with
  | zero =>
    intro st _
    rw [pollLoop_zero]
    exact ⟨rfl, rfl, rfl⟩
  | succ n ih =>
    intro st h
    obtain ⟨s, hs, hstep⟩ :=
      pollStep_nonterminal (h st.polls (Nat.le_refl _) (by omega))
    have hred : pollLoop pr (n + 1) st =
        pollLoop pr n (persistProgress (tick st) s.progress_percentage) := by
      rw [pollLoop_succ, hstep]
    rw [hred]
    have hpolls : (persistProgress (tick st) s.progress_percentage).polls = st.polls + 1 := rfl
    have := ih (persistProgress (tick st) s.progress_percentage)
      (fun k hk1 hk2 => h k (by omega) (by omega))
    refine ⟨this.1, this.2.1, by omega⟩

theorem pollLoop_stops_at_first_terminal (pr : ProviderRun) :
    ∀ (fuel : Nat) (st : LoopState) (k : Nat),
      (∀ j, st.polls ≤ j → j < k → isNonTerminalPoll pr j) →
      st.polls ≤ k → k < st.polls + fuel → isTerminalPoll pr k →
      (pollLoop pr fuel st).polls = k + 1 := by
  intro fuel
  induction fuel with
  | zero => intro st k _ h1 h2 _; omega
  | succ n ih =>
    intro st k hpre h1 h2 hterm
    by_cases hk : st.polls = k
    · subst hk
      obtain ⟨stop, hstep⟩ := pollStep_terminal hterm
      have hred : pollLoop pr (n + 1) st = stop := by
        rw [pollLoop_succ, hstep]
      rw [hred]
      exact (pollStep_inr_polls hstep).1
    · obtain ⟨s, hs, hstep⟩ :=
        pollStep_nonterminal (hpre st.polls (Nat.le_refl _) (by omega))
      have hred : pollLoop pr (n + 1) st =
          pollLoop pr n (persistProgress (tick st) s.progress_percentage) := by
        rw [pollLoop_succ, hstep]
      rw [hred]
      have hpolls : (persistProgress (tick st) s.progress_percentage).polls = st.polls + 1 := rfl
      exact ih _ k (fun j hj1 hj2 => hpre j (by omega) hj2) (by omega) (by omega) hterm

theorem pollLoop_terminal_state (pr : ProviderRun) :
    ∀ (fuel : Nat) (st : LoopState),
      (pollLoop pr fuel st).video.status = JobStatus.failed ∨
      (pollLoop pr fuel st).video.status = JobStatus.completed := by
  intro fuel
  induction fuel with
  | zero => intro st; exact Or.inl rfl
  | succ n ih =>
    intro st
    rw [pollLoop_succ]
    cases hstep : pollStep pr st with
    | inr stop => exact pollStep_inr_terminal hstep
    | inl next => exact ih next

theorem pollLoop_completed_falsy (pr : ProviderRun) :
    ∀ (fuel : Nat) (st : LoopState) (k : Nat) (s : StatusResp) (c : Option (List Nat)),
      (∀ j, st.polls ≤ j → j < k → isNonTerminalPoll pr j) →
      st.polls ≤ k → k < st.polls + fuel →
      pr.poll k = .ok s → s.status = VideoStatus.completed →
      pr.download = .ok c → bytesTruthy c = false →
      (pollLoop pr fuel st).video.status = JobStatus.failed ∧
      (pollLoop pr fuel st).video.error_message =
        some "Failed to download generated video" := by
  intro fuel
  induction fuel with
  | zero => intro st k s c _ h1 h2 _ _ _ _; omega
  | succ n ih =>
    intro st k s c hpre h1 h2 hs hc hd hb
    by_cases hk : st.polls = k
    · subst hk
      have hred : pollLoop pr (n + 1) st =
          failVideo (persistProgress (tick st) s.progress_percentage)
            "Failed to download generated video" := by
        rw [pollLoop_succ]
        simp only [pollStep, hs, if_pos hc, downloadStop_falsy _ _ c hd hb]
      rw [hred]
      exact ⟨rfl, rfl⟩
    · obtain ⟨s0, hs0, hstep⟩ :=
        pollStep_nonterminal (hpre st.polls (Nat.le_refl _) (by omega))
      have hred : pollLoop pr (n + 1) st =
          pollLoop pr n (persistProgress (tick st) s0.progress_percentage) := by
        rw [pollLoop_succ, hstep]
      rw [hred]
      have hpolls : (persistProgress (tick st) s0.progress_percentage).polls =
        st.polls + 1 := rfl
      exact ih _ k s c (fun j hj1 hj2 => hpre j (by omega) hj2)
        (by omega) (by omega) hs hc hd hb

/-- The loop state at entry to the poll loop: the video marked PROCESSING
with the provider job id stored, empty trace, zero polls, zero sleep. -/
def startState (v : VideoRow) (g : GenResp) : LoopState :=
  ⟨{ v with
    status := JobStatus.processing,
    started_at := some 1,
    provider_job_id := g.sora_job_id }, [], 0, 0⟩

/-- Claim C5: the poll loop performs at most 120 poll attempts, each
preceded by a fixed 5-second sleep (total sleep = 5 × polls), exits right
after the first terminal poll, and when every one of the 120 polls is
non-terminal the job is marked FAILED with the "Video generation timed
out" message. -/
theorem claim_C5_poll_loop (pr : ProviderRun) (v : VideoRow) (g : GenResp)
    (hg : pr.generate = .ok g) :
    (process_video_generation pr v).polls ≤ 120 ∧
    (process_video_generation pr v).slept_seconds =
      5 * (process_video_generation pr v).polls ∧
    ((∀ k, k < 120 → isNonTerminalPoll pr k) →
      (process_video_generation pr v).video.status = JobStatus.failed ∧
      (process_video_generation pr v).video.error_message =
        some "Video generation timed out" ∧
      (process_video_generation pr v).polls = 120) ∧
    (∀ k, k < 120 → (∀ j, j < k → isNonTerminalPoll pr j) → isTerminalPoll pr k →
      (process_video_generation pr v).polls = k + 1) := by
  have hred : process_video_generation pr v = pollLoop pr 120 (startState v g) := by
    unfold process_video_generation startState
    rw [hg]
  rw [hred]
  refine ⟨?_, ?_, ?_, ?_⟩
  · exact pollLoop_polls_le pr 120 _
  · exact pollLoop_slept pr 120 _ rfl
  · intro h
    have ht := pollLoop_timeout pr 120 (startState v g) (fun k _ hk2 => h k hk2)
    exact ⟨ht.1, ht.2.1, ht.2.2⟩
  · intro k hk hpre hterm
    exact pollLoop_stops_at_first_terminal pr 120 _ k
      (fun j _ hj2 => hpre j hj2) (Nat.zero_le k) hk hterm

/-- A concrete video row used by the evaluation theorems and witnesses. -/
def sampleVideo : VideoRow :=
  { id := "v1"
    user_id := "u1"
    image_id := none
    provider_id := "p1"
    prompt := "a sunset over the sea"
    duration_seconds := 5
    resolution_width := 1280
    resolution_height := 720
    fps := 24
    status := JobStatus.pending
    progress_percentage := 0
    error_message := none
    provider_job_id := none
    file_size := none
    credits_cost := 2 / 5
    credits_refunded := 0
    created_at := 0
    started_at := none
    completed_at := none }

/-- Provider behaviour used by the C5 witness: non-terminal on poll 0,
COMPLETED on poll 1, bytes present. -/
def c5Provider : ProviderRun :=
  { generate := .ok ⟨"g1", some "sj"⟩
    poll := fun k =>
      if k = 0 then .ok ⟨.processing, 10, none⟩
      else .ok ⟨.completed, 100, none⟩
    download := .ok (some [1, 2, 3]) }

/-- Witness for claim C5: with a provider that completes on the second
poll, the loop makes exactly 2 poll attempts. -/
theorem claim_C5_witness :
    c5Provider.generate = .ok ⟨"g1", some "sj"⟩ ∧
    (1 : Nat) < 120 ∧
    (process_video_generation c5Provider sampleVideo).polls = 2 :=
  ⟨rfl, by decide,
    (claim_C5_poll_loop c5Provider sampleVideo ⟨"g1", some "sj"⟩ rfl).2.2.2 1 (by decide)
      (fun j hj => by
        interval_cases j
        exact ⟨⟨.processing, 10, none⟩, rfl, by simp, by simp⟩)
      ⟨⟨.completed, 100, none⟩, rfl, Or.inl rfl⟩⟩

/-- Provider behaviour used by the C7 counterexample and witness: reports
COMPLETED immediately but `download_video` returns `None`. -/
def c7Provider : ProviderRun :=
  { generate := .ok ⟨"g1", some "sj"⟩
    poll := fun _ => .ok ⟨.completed, 100, none⟩
    download := .ok none }

/-- Counterexample to claim C7: when the provider reports COMPLETED but no
artifact can be retrieved, the job is marked FAILED with the message
"Failed to download generated video", not with the claimed "completed
without retrievable output". -/
theorem claim_C7_counterexample :
    (process_video_generation c7Provider sampleVideo).video.status = JobStatus.failed ∧
    (process_video_generation c7Provider sampleVideo).video.error_message =
      some "Failed to download generated video" ∧
    some "Failed to download generated video" ≠
      some "completed without retrievable output" :=
  ⟨rfl, rfl, by simp⟩

/-- Claim C7 as amended: if the provider reports COMPLETED within the
attempt budget but `download_video` returns falsy content, the job is
transitioned to FAILED with the error message "Failed to download
generated video" (the source's message, not the claimed "completed without
retrievable output"); and no run of the background task ever leaves the
job in a non-terminal state. -/
theorem claim_C7_amended (pr : ProviderRun) (v : VideoRow) (g : GenResp) (k : Nat)
    (s : StatusResp) (c : Option (List Nat))
    (hg : pr.generate = .ok g) (hk : k < 120)
    (hpre : ∀ j, j < k → isNonTerminalPoll pr j)
    (hs : pr.poll k = .ok s) (hc : s.status = VideoStatus.completed)
    (hd : pr.download = .ok c) (hb : bytesTruthy c = false) :
    (process_video_generation pr v).video.status = JobStatus.failed ∧
    (process_video_generation pr v).video.error_message =
      some "Failed to download generated video" ∧
    (∀ (pr' : ProviderRun) (v' : VideoRow),
      (process_video_generation pr' v').video.status = JobStatus.failed ∨
      (process_video_generation pr' v').video.status = JobStatus.completed) := by
  have hred : process_video_generation pr v = pollLoop pr 120 (startState v g) := by
    unfold process_video_generation startState
    rw [hg]
  have hmain := pollLoop_completed_falsy pr 120 (startState v g) k s c
    (fun j _ hj2 => hpre j hj2) (Nat.zero_le k) hk hs hc hd hb
  refine ⟨by rw [hred]; exact hmain.1, by rw [hred]; exact hmain.2, ?_⟩
  intro pr' v'
  cases hg' : pr'.generate with
  | error e =>
    have : process_video_generation pr' v' =
        ⟨{ v' with
          status := JobStatus.failed,
          error_message := some (ProvErr.toText e),
          started_at := some 1 }, [], 0, 0⟩ := by
      unfold process_video_generation
      rw [hg']
    rw [this]
    exact Or.inl rfl
  | ok g' =>
    have : process_video_generation pr' v' = pollLoop pr' 120 (startState v' g') := by
      unfold process_video_generation startState
      rw [hg']
    rw [this]
    exact pollLoop_terminal_state pr' 120 _

/-- Witness for the amended claim C7 at the concrete COMPLETED-with-absent-
artifact provider behaviour. -/
theorem claim_C7_amended_witness :
    c7Provider.generate = .ok ⟨"g1", some "sj"⟩ ∧
    c7Provider.poll 0 = .ok ⟨.completed, 100, none⟩ ∧
    c7Provider.download = .ok none ∧
    bytesTruthy none = false ∧
    (process_video_generation c7Provider sampleVideo).video.status = JobStatus.failed :=
  ⟨rfl, rfl, rfl, rfl,
    (claim_C7_amended c7Provider sampleVideo ⟨"g1", some "sj"⟩ 0 ⟨.completed, 100, none⟩
      none rfl (by decide) (fun j hj => absurd hj (Nat.not_lt_zero j)) rfl rfl rfl rfl).1⟩

/-- Provider behaviour used by the C3 theorem: progress 50 on the first
poll, 30 on the second, terminal FAILED on the third. -/
def c3Provider : ProviderRun :=
  { generate := .ok ⟨"g1", some "sj"⟩
    poll := fun k =>
      if k = 0 then .ok ⟨.processing, 50, none⟩
      else if k = 1 then .ok ⟨.processing, 30, none⟩
      else .ok ⟨.failed, 30, some "provider failed"⟩
    download := .ok none }

/-- Claim C3 evaluated at the failing input: the persisted progress trace
is exactly the provider-reported sequence 50, 30, 30 — the stored value
drops from 50 to 30 because `process_video_generation` assigns the
reported progress without clamping to the previous maximum. -/
theorem claim_C3_progress_not_clamped :
    (process_video_generation c3Provider sampleVideo).persisted_progress = [50, 30, 30] ∧
    (process_video_generation c3Provider sampleVideo).video.progress_percentage = 30 ∧
    ¬ List.Chain' (fun a b : Int => a ≤ b)
      (process_video_generation c3Provider sampleVideo).persisted_progress := by
  refine ⟨rfl, rfl, ?_⟩
  rw [show (process_video_generation c3Provider sampleVideo).persisted_progress =
    [50, 30, 30] from rfl]
  norm_num [List.chain'_cons, List.chain'_singleton]

/-- Database before the C1 scenario: one user with balance 10, one active
sora provider row, empty ledger. -/
def c1Db0 : DbState :=
  { users := [⟨"u1", 10⟩]
    providers := [⟨"p-sora", "sora", true⟩]
    images := []
    videos := []
    transactions := [] }

/-- Admission request of the C1 scenario. -/
def c1Req : AdmitRequest := ⟨"a sunset", 5, 1280, 720, 24, "sora", none⟩

/-- Provider behaviour of the C1 scenario: dispatch succeeds, the first
poll reports FAILED with message "boom". -/
def c1Provider : ProviderRun :=
  { generate := .ok ⟨"g1", some "sj"⟩
    poll := fun _ => .ok ⟨.failed, 0, some "boom"⟩
    download := .ok none }

/-- Database after admission of the C1 scenario. -/
def c1DbAfter : DbState := (generate_video envEmpty c1Db0 (some "u1") c1Req "v1").1

/-- Database after the background task of the C1 scenario ran to the FAILED
state. -/
def c1DbFinal : DbState := process_video_generation_db c1Provider c1DbAfter "v1"

/-- Claim C1 evaluated at the failing input: a job that reaches FAILED ends
with `credits_refunded = 0`, not `credits_cost` — the failure path of
`process_video_generation` records the error but never credits the ledger:
the final state holds no transaction row at all (in particular no REFUND
entry) and the user's balance stays at its debited value. -/
theorem claim_C1_failed_job_not_refunded :
    (generate_video envEmpty c1Db0 (some "u1") c1Req "v1").2.2 = ["v1"] ∧
    ((c1DbFinal.videos.filter (fun v => v.id == "v1")).head?.map
        (fun v => (v.status, v.credits_cost, v.credits_refunded, v.error_message)) =
      some (JobStatus.failed, mockCalculateCost (c1Req.toProviderRequest none), 0,
        some "boom")) ∧
    c1DbFinal.transactions = [] ∧
    c1DbFinal.users = [⟨"u1", 10 - mockCalculateCost (c1Req.toProviderRequest none)⟩] ∧
    mockCalculateCost (c1Req.toProviderRequest none) ≠ 0 := by
  have hcost : ¬ ((⟨"u1", 10⟩ : UserRow).credits_balance <
      mockCalculateCost (c1Req.toProviderRequest none)) := by
    norm_num [mockCalculateCost, c1Req, AdmitRequest.toProviderRequest]
  have hadm := generate_video_ok envEmpty c1Db0 "u1" c1Req "v1" ⟨"u1", 10⟩
    ⟨"p-sora", "sora", true⟩ (.mock "sora")
    (mockCalculateCost (c1Req.toProviderRequest none)) rfl rfl (by rfl) hcost
  have hafter : c1DbAfter =
      { users := [⟨"u1", (10 : ℚ) - mockCalculateCost (c1Req.toProviderRequest none)⟩]
        providers := [⟨"p-sora", "sora", true⟩]
        images := []
        videos := [mkAdmittedVideo "v1" "u1" c1Req ⟨"p-sora", "sora", true⟩
          (mockCalculateCost (c1Req.toProviderRequest none))]
        transactions := [] } := by
    unfold c1DbAfter
    rw [hadm]
    rfl
  refine ⟨?_, ?_, ?_, ?_, ?_⟩
  · rw [hadm]
  · unfold c1DbFinal
    rw [hafter]
    rfl
  · unfold c1DbFinal
    rw [hafter]
    rfl
  · unfold c1DbFinal
    rw [hafter]
    rfl
  · norm_num [mockCalculateCost, c1Req, AdmitRequest.toProviderRequest]

/-! ## Per-user endpoints: `get_video_status`, `list_user_videos`,
`delete_video` (`services/video/main.py`) -/

/-- The fields of the `VideoGenerationResponse` built by the status and
list endpoints (the metadata dictionary flattened). -/
structure VideoStatusView where
  id : String
  status : JobStatus
  progress_percentage : Int
  error_message : Option String
  video_url : Option String
  credits_cost : ℚ
  provider_type : String
  resolution : String
  duration : Nat
  created_at : Nat
  completed_at : Option Nat
deriving DecidableEq, Repr

/-- The hard-coded sample URL returned while S3 is disabled. -/
def sampleUrl : String :=
  "https://commondatastorage.googleapis.com/gtv-videos-bucket/sample/BigBuckBunny.mp4"

/-- Build the response for one video row (the provider type comes from the
`video.provider` relationship, i.e. a join on `provider_id`). -/
def videoResponse (providers : List ProviderRow) (v : VideoRow) : VideoStatusView :=
  { id := v.id
    status := v.status
    progress_percentage := v.progress_percentage
    error_message := v.error_message
    video_url := if v.status == JobStatus.completed then some sampleUrl else none
    credits_cost := v.credits_cost
    provider_type :=
      (((providers.filter (fun p => p.id == v.provider_id)).head?).map (·.ptype)).getD "unknown"
    resolution := toString v.resolution_width ++ "x" ++ toString v.resolution_height
    duration := v.duration_seconds
    created_at := v.created_at
    completed_at := v.completed_at }

/-- `get_video_status` (`services/video/main.py`): the row is looked up by
`and_(Video.id == video_id, Video.user_id == user_id)`. -/
def get_video_status (db : DbState) (userIdHeader : Option String) (video_id : String) :
    Except HttpError VideoStatusView :=
  match userIdHeader with
  | none => .error ⟨401, "Authentication required"⟩
  | some uid =>
    match (db.videos.filter (fun v => v.id == video_id && v.user_id == uid)).head? with
    | none => .error ⟨404, "Video not found"⟩
    | some v => .ok (videoResponse db.providers v)

/-- `JobStatus(status)` on a query string: the enum lookup by value. -/
def jobStatusOfString (st : String) : Option JobStatus :=
  if st == "pending" then some .pending
  else if st == "processing" then some .processing
  else if st == "completed" then some .completed
  else if st == "failed" then some .failed
  else if st == "cancelled" then some .cancelled
  else none

/-- Insert into a list kept in descending `created_at` order. -/
def insertDesc (v : VideoRow) : List VideoRow → List VideoRow
  | [] => [v]
  | w :: ws => if w.created_at ≤ v.created_at then v :: w :: ws else w :: insertDesc v ws

/-- `order_by(Video.created_at.desc())` as a deterministic sort. -/
def sortByCreatedDesc : List VideoRow → List VideoRow
  | [] => []
  | v :: vs => insertDesc v (sortByCreatedDesc vs)

/-- The `VideoListResponse` of the list endpoint. -/
structure ListResp where
  videos : List VideoStatusView
  total : Nat
  page : Nat
  page_size : Nat
deriving DecidableEq, Repr

/-- Count, sort, paginate and render a filtered query. -/
def renderVideoList (providers : List ProviderRow) (q : List VideoRow)
    (page page_size : Nat) : ListResp :=
  { videos := (((sortByCreatedDesc q).drop ((page - 1) * page_size)).take page_size).map
      (videoResponse providers)
    total := q.length
    page := page
    page_size := page_size }

/-- `list_user_videos` (`services/video/main.py`): the base query filters
on `Video.user_id == user_id`; an invalid status string is HTTP 400. -/
def list_user_videos (db : DbState) (userIdHeader : Option String)
    (page page_size : Nat) (status : Option String) : Except HttpError ListResp :=
  match userIdHeader with
  | none => .error ⟨401, "Authentication required"⟩
  | some uid =>
    let q := db.videos.filter (fun v => v.user_id == uid)
    match status with
    | none => .ok (renderVideoList db.providers q page page_size)
    | some st =>
      match jobStatusOfString st with
      | none => .error ⟨400, "Invalid status: " ++ st⟩
      | some se =>
        .ok (renderVideoList db.providers (q.filter (fun v => v.status == se)) page page_size)

/-- `delete_video` (`services/video/main.py`): the row is looked up by
`and_(Video.id == video_id, Video.user_id == user_id)` and, when owned by
the requester, deleted by primary key. -/
def delete_video (db : DbState) (userIdHeader : Option String) (video_id : String) :
    DbState × Except HttpError String :=
  match userIdHeader with
  | none => (db, .error ⟨401, "Authentication required"⟩)
  | some uid =>
    match (db.videos.filter (fun v => v.id == video_id && v.user_id == uid)).head? with
    | none => (db, .error ⟨404, "Video not found"⟩)
    | some v =>
      ({ db with videos := db.videos.filter (fun w => !(w.id == v.id)) },
        .ok "Video deleted successfully")

/-- Claim C10: job records are user-isolated.  (i) For a job id with no row
owned by the requester, status and delete return 404 and delete leaves the
state unchanged.  (ii) Two database states that agree on the requester's
own videos (and on the providers table) yield identical status, list and
delete responses for that requester, whatever other users' videos hold. -/
theorem claim_C10_user_isolation (db db1 db2 : DbState) (uid vid : String)
    (page page_size : Nat) (stf : Option String)
    (hnot : ∀ v ∈ db.videos, v.id = vid → v.user_id ≠ uid)
    (hv : db1.videos.filter (fun v => v.user_id == uid) =
      db2.videos.filter (fun v => v.user_id == uid))
    (hp : db1.providers = db2.providers) :
    get_video_status db (some uid) vid = .error ⟨404, "Video not found"⟩ ∧
    delete_video db (some uid) vid = (db, .error ⟨404, "Video not found"⟩) ∧
    get_video_status db1 (some uid) vid = get_video_status db2 (some uid) vid ∧
    list_user_videos db1 (some uid) page page_size stf =
      list_user_videos db2 (some uid) page page_size stf ∧
    (delete_video db1 (some uid) vid).2 = (delete_video db2 (some uid) vid).2 := by
  have hnil : db.videos.filter (fun v => v.id == vid && v.user_id == uid) = [] := by
    apply List.filter_eq_nil_iff.mpr
    intro v hvmem
    simp only [Bool.and_eq_true, beq_iff_eq, not_and]
    intro hid huid
    exact hnot v hvmem hid huid
  have key : ∀ d : DbState,
      d.videos.filter (fun v => v.id == vid && v.user_id == uid) =
      (d.videos.filter (fun v => v.user_id == uid)).filter (fun v => v.id == vid) :=
    fun d => (List.filter_filter _ _).symm
  refine ⟨?_, ?_, ?_, ?_, ?_⟩
  · simp only [get_video_status, hnil, List.head?_nil]
  · simp only [delete_video, hnil, List.head?_nil]
  · simp only [get_video_status, key, hv, hp]
  · simp only [list_user_videos, hv, hp]
  · cases hX : ((db2.videos.filter (fun v => v.user_id == uid)).filter
      (fun v => v.id == vid)).head? with
    | none => simp only [delete_video, key, hv, hX]
    | some v => simp only [delete_video, key, hv, hX]

/-- Database used by the C10 witness: one video owned by "alice". -/
def c10Db : DbState :=
  { users := []
    providers := [⟨"p1", "sora", true⟩]
    images := []
    videos := [{ sampleVideo with id := "w1", user_id := "alice" }]
    transactions := [] }

/-- The same database with the other user's video removed. -/
def c10DbOther : DbState := { c10Db with videos := [] }

/-- Witness for claim C10: user "bob" asking for the job "w1" owned by
user "alice" gets 404, and removing the video of "alice" does not change
the responses served to "bob". -/
theorem claim_C10_witness :
    (∀ v ∈ c10Db.videos, v.id = "w1" → v.user_id ≠ "bob") ∧
    (c10Db.videos.filter (fun v => v.user_id == "bob") =
      c10DbOther.videos.filter (fun v => v.user_id == "bob")) ∧
    c10Db.providers = c10DbOther.providers ∧
    get_video_status c10Db (some "bob") "w1" = .error ⟨404, "Video not found"⟩ ∧
    get_video_status c10Db (some "bob") "w1" =
      get_video_status c10DbOther (some "bob") "w1" ∧
    list_user_videos c10Db (some "bob") 1 20 none =
      list_user_videos c10DbOther (some "bob") 1 20 none :=
  ⟨by decide, rfl, rfl,
    (claim_C10_user_isolation c10Db c10Db c10DbOther "bob" "w1" 1 20 none
      (by decide) rfl rfl).1,
    (claim_C10_user_isolation c10Db c10Db c10DbOther "bob" "w1" 1 20 none
      (by decide) rfl rfl).2.2.1,
    (claim_C10_user_isolation c10Db c10Db c10DbOther "bob" "w1" 1 20 none
      (by decide) rfl rfl).2.2.2.1⟩

end VideoGen
